import Mathlib

/-!
Verification development for the agentic image-generation core of the
sentient-studio repository.

The embedded code lives in two variants of the same module:
  - src/lib/ai/gemini.ts        (sequential tool execution), and
  - src/unnamed/part_005        (a later revision of the same module with
    parallel tool execution, response summarization and graceful
    degradation on turn-exchange failure).

Unless a definition says otherwise, the embedding follows the
src/unnamed/part_005 revision, which is the variant that implements the
orchestration-loop features the specification describes (parallel fan-out,
per-field merge, graceful degradation).  Where the two variants differ in a
way a claim depends on, the gemini.ts variant is embedded separately under a
name marked V1.

Remote calls (the generative-model service) are modelled as oracle values
supplied through environment records: the embedding keeps every branch the
TypeScript code takes on the values those calls return, while the values
themselves are arbitrary inputs of the theorems.  JavaScript truthiness on
the string fields the code tests with logical-or and negation is modelled
explicitly (null/undefined and the empty string are falsy).  JavaScript
numbers that the code only compares and clamps are modelled as Int.
-/

namespace SentientStudio

/-- JavaScript a-or-else-b for a nullable string expression a and a string b:
a present non-empty string is truthy, while null, undefined and the empty
string fall through to b. -/
def jsOrStr (a : Option String) (b : String) : String :=
  match a with
  | some s => if s = "" then b else s
  | none => b

/-- JavaScript a-or-else-b where both operands are nullable strings. -/
def jsOrOpt (a b : Option String) : Option String :=
  match a with
  | some s => if s = "" then b else some s
  | none => b

/-- JavaScript truthiness filter on a nullable string: the result of
expressions of the form x-or-null or x-or-undefined, where the empty string
collapses to the null case. -/
def jsTruthy (a : Option String) : Option String :=
  match a with
  | some s => if s = "" then none else some s
  | none => none

/-- JavaScript a-or-else-b for a nullable number field a: the number 0 is
falsy and falls through to b, as do null and undefined. -/
def jsOrInt (a : Option Int) (b : Int) : Int :=
  match a with
  | some n => if n = 0 then b else n
  | none => b

/-! ## Data model: BrandConstitution (lib/types, shape as used by part_005)

The part_005 revision of the module reads and writes a visual identity that
carries a style_description field in addition to the fields of the
gemini.ts revision.  -/

structure VisualIdentity where
  color_palette_hex : List String
  photography_style : String
  style_description : String
  forbidden_elements : List String
deriving DecidableEq

structure BrandVoice where
  tone : String
  keywords : List String
deriving DecidableEq

structure RiskThresholds where
  nudity : String
  political : String
deriving DecidableEq

structure BrandConstitution where
  visual_identity : VisualIdentity
  voice : BrandVoice
  risk_thresholds : RiskThresholds
deriving DecidableEq

/-- Embeds getDefaultConstitution of src/unnamed/part_005 (lines 1145-1162). -/
def getDefaultConstitution : BrandConstitution :=
  { visual_identity :=
      { color_palette_hex := ["#00FFCC", "#FF00FF", "#000000"]
        photography_style := "Modern, bold, high contrast"
        style_description := "Modern, bold, high contrast"
        forbidden_elements := [] }
    voice :=
      { tone := "Professional yet approachable"
        keywords := ["Innovation", "Quality"] }
    risk_thresholds :=
      { nudity := "STRICT_ZERO_TOLERANCE"
        political := "STRICT_ZERO_TOLERANCE" } }

/-! ## Dynamic JSON input of validateAndSanitizeConstitution

The function receives the parsed JSON of a model response and probes a fixed
set of paths with Array.isArray and typeof checks.  The embedding restricts
the dynamic value to exactly those observations: every field is an Option
that is present when the JSON carries a value of the checked type at that
path.  The visual_identity, voice and risk_thresholds keys can each be
either a structured object or a value of a second accepted type, so they get
small sum types. -/

inductive JVisualIdentity where
  | arr (colors : List String)
  | obj (color_palette_hex : Option (List String)) (photography_style : Option String)
      (style_description : Option String) (forbidden_elements : Option (List String))
deriving DecidableEq

inductive JVoice where
  | str (s : String)
  | obj (tone : Option String) (keywords : Option (List String))
deriving DecidableEq

inductive JRisk where
  | str (s : String)
  | obj (nudity : Option String) (political : Option String)
deriving DecidableEq

structure ConstitutionJson where
  visual_identity : Option JVisualIdentity := none
  color_palette : Option (List String) := none
  color_palette_hex : Option (List String) := none
  photography_style : Option String := none
  style_description : Option String := none
  forbidden_elements : Option (List String) := none
  voice : Option JVoice := none
  voice_tone : Option String := none
  tone : Option String := none
  keywords : Option (List String) := none
  risk_thresholds : Option JRisk := none
deriving DecidableEq

/-- Color-palette branch chain of validateAndSanitizeConstitution
(part_005 lines 584-599): visual_identity as an array, then the nested
field, then the two flat alternatives, then the default. -/
def constitutionColorPalette (data : ConstitutionJson) : List String :=
  match data.visual_identity with
  | some (.arr colors) => colors
  | some (.obj (some cs) _ _ _) => cs
  | _ =>
    match data.color_palette with
    | some cs => cs
    | none =>
      match data.color_palette_hex with
      | some cs => cs
      | none => getDefaultConstitution.visual_identity.color_palette_hex

/-- Optional-chaining read of visual_identity.photography_style: undefined
when visual_identity is absent or an array. -/
def viPhotographyStyle (data : ConstitutionJson) : Option String :=
  match data.visual_identity with
  | some (.obj _ p _ _) => p
  | _ => none

/-- Photography-style fallback chain (part_005 lines 602-605). -/
def constitutionPhotographyStyle (data : ConstitutionJson) : String :=
  jsOrStr (viPhotographyStyle data)
    (jsOrStr data.photography_style getDefaultConstitution.visual_identity.photography_style)

/-- Optional-chaining read of visual_identity.style_description. -/
def viStyleDescription (data : ConstitutionJson) : Option String :=
  match data.visual_identity with
  | some (.obj _ _ sd _) => sd
  | _ => none

/-- Style-description fallback chain (part_005 lines 608-611): when both the
nested and the flat key are missing or empty, the code falls back to the
first sentence of the already-resolved photography style with a period
appended, not to the default profile.  The split-on-period-take-first of
the source is the prefix before the first period. -/
def constitutionStyleDescription (data : ConstitutionJson) : String :=
  jsOrStr (viStyleDescription data)
    (jsOrStr data.style_description
      (String.mk ((constitutionPhotographyStyle data).data.takeWhile
        (fun c => c ≠ '.')) ++ "."))

/-- Forbidden-elements branch chain (part_005 lines 614-621). -/
def constitutionForbiddenElements (data : ConstitutionJson) : List String :=
  match data.visual_identity with
  | some (.obj _ _ _ (some fs)) => fs
  | _ =>
    match data.forbidden_elements with
    | some fs => fs
    | none => getDefaultConstitution.visual_identity.forbidden_elements

/-- Voice-tone branch chain (part_005 lines 624-635): nested voice.tone
string, then voice itself as a string, then the two flat keys, then the
default.  The typeof checks accept the empty string. -/
def constitutionVoiceTone (data : ConstitutionJson) : String :=
  match data.voice with
  | some (.obj (some t) _) => t
  | some (.str s) => s
  | _ =>
    match data.voice_tone with
    | some t => t
    | none =>
      match data.tone with
      | some t => t
      | none => getDefaultConstitution.voice.tone

/-- Keywords branch chain (part_005 lines 638-645). -/
def constitutionKeywords (data : ConstitutionJson) : List String :=
  match data.voice with
  | some (.obj _ (some ks)) => ks
  | _ =>
    match data.keywords with
    | some ks => ks
    | none => getDefaultConstitution.voice.keywords

/-- Nudity threshold (part_005 lines 648-649): the nested read, or-else a
ternary that yields the strict constant when risk_thresholds is itself a
truthy string and the default otherwise. -/
def constitutionNudity (data : ConstitutionJson) : String :=
  jsOrStr
    (match data.risk_thresholds with
     | some (.obj n _) => n
     | _ => none)
    (match data.risk_thresholds with
     | some (.str s) =>
       if s = "" then getDefaultConstitution.risk_thresholds.nudity
       else "STRICT_ZERO_TOLERANCE"
     | _ => getDefaultConstitution.risk_thresholds.nudity)

/-- Political threshold (part_005 line 650). -/
def constitutionPolitical (data : ConstitutionJson) : String :=
  jsOrStr
    (match data.risk_thresholds with
     | some (.obj _ p) => p
     | _ => none)
    getDefaultConstitution.risk_thresholds.political

/-- Embeds validateAndSanitizeConstitution of src/unnamed/part_005
(lines 580-670), the shape-normalizer for style-profile responses. -/
def validateAndSanitizeConstitution (data : ConstitutionJson) : BrandConstitution :=
  { visual_identity :=
      { color_palette_hex := constitutionColorPalette data
        photography_style := constitutionPhotographyStyle data
        style_description := constitutionStyleDescription data
        forbidden_elements := constitutionForbiddenElements data }
    voice :=
      { tone := constitutionVoiceTone data
        keywords := constitutionKeywords data }
    risk_thresholds :=
      { nudity := constitutionNudity data
        political := constitutionPolitical data } }

/-! ## Audit results -/

structure HeatmapCoordinate where
  x : Int
  y : Int
  issue : String
deriving DecidableEq

structure AuditResult where
  compliance_score : Int
  pass : Bool
  heatmap_coordinates : List HeatmapCoordinate
  fix_instructions : String
deriving DecidableEq

/-- Dynamic value found at the pass key of an audit response: the code
distinguishes a boolean, a string compared against the literal "true", and
anything else. -/
inductive JPass where
  | bool (b : Bool)
  | str (s : String)
deriving DecidableEq

/-- Dynamic value found at the fix_instructions key: a string or an array of
strings (anything else falls through to the defaults). -/
inductive JFix where
  | str (s : String)
  | arr (items : List String)
deriving DecidableEq

/-- Dynamic entry of an issues array, as probed by the coordinate-mapping
branch: optional numeric x and y, optional issue and description strings,
and the JavaScript string rendering used as the last resort. -/
structure JIssue where
  x : Option Int := none
  y : Option Int := none
  issue : Option String := none
  description : Option String := none
  stringValue : String := ""
deriving DecidableEq

structure AuditJson where
  compliance_score : Option Int := none
  score : Option Int := none
  pass : Option JPass := none
  heatmap_coordinates : Option (List HeatmapCoordinate) := none
  coordinates : Option (List HeatmapCoordinate) := none
  issues : Option (List JIssue) := none
  fix_instructions : Option JFix := none
  instructions : Option String := none
deriving DecidableEq

/-- Raw numeric score selection of validateAndSanitizeAuditResult
(identical in both module variants): compliance_score if it is a number,
else score, else 50. -/
def rawAuditScore (data : AuditJson) : Int :=
  match data.compliance_score with
  | some n => n
  | none =>
    match data.score with
    | some n => n
    | none => 50

/-- Pass-flag selection: an explicit boolean wins outright; the string
"true" forces true; anything else derives pass from the raw score. -/
def auditPassFlag (data : AuditJson) : Bool :=
  match data.pass with
  | some (.bool b) => b
  | some (.str s) => if s = "true" then true else decide (rawAuditScore data ≥ 90)
  | none => decide (rawAuditScore data ≥ 90)

/-- Coordinate selection: heatmap_coordinates, else coordinates, else a
mapping of the issues array with positional fallbacks, else empty. -/
def auditCoordinates (data : AuditJson) : List HeatmapCoordinate :=
  match data.heatmap_coordinates with
  | some cs => cs
  | none =>
    match data.coordinates with
    | some cs => cs
    | none =>
      match data.issues with
      | some issues =>
        issues.enum.map (fun p =>
          { x := jsOrInt p.2.x (((p.1 : Int) * 20) % 100)
            y := jsOrInt p.2.y (((p.1 : Int) * 20) % 100)
            issue := jsOrStr p.2.issue (jsOrStr p.2.description p.2.stringValue) })
      | none => []

/-- Fix-instructions selection: fix_instructions as a string, else
instructions as a string, else fix_instructions as an array joined with a
period separator, else a fixed message. -/
def auditFixInstructions (data : AuditJson) : String :=
  match data.fix_instructions with
  | some (.str s) => s
  | _ =>
    match data.instructions with
    | some s => s
    | none =>
      match data.fix_instructions with
      | some (.arr items) => String.intercalate ". " items
      | _ => "No specific fix instructions provided."

/-- Embeds validateAndSanitizeAuditResult (gemini.ts lines 719-750,
part_005 lines 768-799; the two variants are identical).  The returned
score is the raw score clamped into 0..100, while the pass flag is derived
from the unclamped raw score when no explicit flag is present. -/
def validateAndSanitizeAuditResult (data : AuditJson) : AuditResult :=
  { compliance_score := max 0 (min 100 (rawAuditScore data))
    pass := auditPassFlag data
    heatmap_coordinates := auditCoordinates data
    fix_instructions := auditFixInstructions data }

/-- Fixed fallback result returned by the catch handler of
auditImageCompliance. -/
def fallbackAuditResult : AuditResult :=
  { compliance_score := 50
    pass := false
    heatmap_coordinates := []
    fix_instructions := "Unable to complete audit due to technical error." }

/-- Balanced-brace JSON extraction scan shared by the canvas-analysis and
audit paths: starting at the first opening brace, track the brace depth and
cut the substring at the position where the depth first returns to zero;
yield nothing when the depth never closes. -/
def braceScan : List Char → Int → List Char → Option String
  | [], _, _ => none
  | c :: rest, count, acc =>
    let count1 := if c = '{' then count + 1 else if c = '}' then count - 1 else count
    let acc1 := acc ++ [c]
    if count1 = 0 then some (String.mk acc1) else braceScan rest count1 acc1

/-- Embeds the balanced-brace extraction of auditImageCompliance (part_005
lines 731-745): indexOf of the first opening brace, then the depth scan;
the empty string stands for the jsonStr variable keeping its initial
value. -/
def extractBalancedJson (responseText : String) : String :=
  let tail := responseText.data.dropWhile (fun c => c ≠ '{')
  match tail with
  | [] => ""
  | _ :: _ => (braceScan tail 0 []).getD ""

/-- Embeds auditImageCompliance (gemini.ts lines 633-714, part_005 lines
678-763).  The remote call and the JSON parser are external: outcome is
either the error thrown by the transport (or by response.text) or the raw
response text, and parse stands for JSON.parse, returning none when parsing
throws.  Every failure path lands in the catch handler, which returns the
fixed fallback result; the prompt construction and the image payload do not
influence the returned value and are not modelled. -/
def auditImageCompliance (parse : String → Option AuditJson)
    (outcome : Except String String) : AuditResult :=
  match outcome with
  | .error _ => fallbackAuditResult
  | .ok responseText =>
    let jsonStr := extractBalancedJson responseText
    if jsonStr = "" then fallbackAuditResult
    else
      match parse jsonStr with
      | none => fallbackAuditResult
      | some data => validateAndSanitizeAuditResult data

/-! ## Agent state, tool calls and tool results

AgentState is declared in lib/ai/tools.ts; its field set is fixed by the
initializer literal in runAgentLoop (part_005 lines 877-887).  The
timestamp field of AgentAction (Date.now at append time) is wall-clock and
is omitted; no embedded computation reads it. -/

structure CanvasElement where
  id : String := ""
  type : String := ""
  name : Option String := none
  url : Option String := none
  text : Option String := none
  color : Option String := none
deriving DecidableEq

/-- Arguments of a model tool call, restricted to the fields whose values
flow into the control paths embedded here (the complete_task executor and
the final bundles).  The remaining tool parameters (prompt, query, style
constraints, ...) are consumed only as inputs of the remote-call oracles
and do not influence any branch of the embedded code. -/
structure ToolCallArgs where
  success : Bool := false
  message : String := ""
  final_image_base64 : Option String := none
deriving DecidableEq

/-- Result value produced by executeTool, one constructor per object shape
the switch builds. -/
inductive ToolResult where
  | analyzeOk (constitution : BrandConstitution)
  | analyzeFail (error : String)
  | generateOk
  | generateFail (error : String)
  | auditFail (error : String)
  | auditOk (compliance_score : Int) (pass : Bool) (issues : List String)
      (fix_instructions : String) (next_action : String)
  | refineOk (refined_prompt : String)
  | searchOk (search_results : String)
  | completeOk (success : Bool) (message : String) (final_image : Option String)
  | unknownTool (error : String)
deriving DecidableEq

structure AgentAction where
  tool : String
  input : ToolCallArgs
  output : ToolResult
  thinking : Option String
  thoughtSignature : Option String
deriving DecidableEq

structure AgentState where
  step : Nat
  phase : String
  constitution : Option BrandConstitution
  currentImage : Option String
  auditScore : Option Int
  attempts : Nat
  maxAttempts : Nat
  history : List AgentAction
  canvasElements : List CanvasElement
deriving DecidableEq

/-- Outcomes of the remote calls a single tool execution can make.  The
defaults are arbitrary; each theorem quantifies over the whole record.
analyzeOutcome and refineOutcome are Except because
analyzeCanvasForConstitution and refinePromptBasedOnFeedback let transport
errors escape; generateOutcome is the value of the imageBase64 variable
after the bounded retry loop inside the generate_image case (null when
every attempt threw); auditOutcome is total because auditImageCompliance
catches everything; searchOutcome is total because searchWebForContext
catches and returns the empty string. -/
structure ToolEnv where
  analyzeOutcome : Except String BrandConstitution := .error ""
  generateOutcome : Option String := none
  generateErrorMsg : Option String := none
  auditOutcome : AuditResult := fallbackAuditResult
  refineOutcome : Except String String := .ok ""
  searchOutcome : String := ""

/-- Embeds executeTool of src/unnamed/part_005 (lines 127-297).  The switch
dispatches on the tool name; an error value models a rejected promise
escaping the executor. -/
def executeTool (toolName : String) (args : ToolCallArgs) (state : AgentState)
    (env : ToolEnv) : Except String (ToolResult × AgentState) :=
  if toolName = "analyze_canvas" then
    -- part_005 reads the elements from shared state only (the 500 fix).
    let elements := state.canvasElements
    if elements.isEmpty then
      .ok (.analyzeFail "No canvas elements found in state", state)
    else
      match env.analyzeOutcome with
      | .error e => .error e
      | .ok constitution =>
        .ok (.analyzeOk constitution,
          { state with constitution := some constitution, phase := "analyzing" })
  else if toolName = "generate_image" then
    -- Net effect of the three-attempt retry loop; a null or empty result
    -- takes the graceful-degradation branch.
    match jsTruthy env.generateOutcome with
    | none =>
      .ok (.generateFail
            ("Image generation failed after 3 attempts: "
              ++ jsOrStr env.generateErrorMsg "Unknown error"),
          { state with phase := "generating", attempts := state.attempts + 1 })
    | some imageBase64 =>
      .ok (.generateOk,
          { state with
              currentImage := some imageBase64
              phase := "generating"
              attempts := state.attempts + 1 })
  else if toolName = "audit_compliance" then
    match jsTruthy state.currentImage, state.constitution with
    | some _, some _ =>
      let auditResult := env.auditOutcome
      let passes := auditResult.pass || decide (auditResult.compliance_score ≥ 90)
      .ok (.auditOk auditResult.compliance_score passes
            (auditResult.heatmap_coordinates.map (fun h => h.issue))
            auditResult.fix_instructions
            (if passes then "CALL complete_task NOW - image passed audit!"
             else "refine and retry"),
          { state with
              auditScore := some auditResult.compliance_score
              phase := if passes then "complete" else "auditing" })
    | _, _ =>
      .ok (.auditFail
            "Missing image or brand DNA. Analyze canvas and generate image first.",
          state)
  else if toolName = "refine_prompt" then
    match env.refineOutcome with
    | .error e => .error e
    | .ok refined => .ok (.refineOk refined, { state with phase := "refining" })
  else if toolName = "search_trends" then
    .ok (.searchOk env.searchOutcome, state)
  else if toolName = "complete_task" then
    -- part_005 lines 272-289: ALWAYS use state.currentImage; the
    -- final_image_base64 argument the model echoed is never read into the
    -- result (an empty current image collapses to null via logical-or).
    .ok (.completeOk args.success args.message (jsTruthy state.currentImage),
        { state with phase := "complete" })
  else
    .ok (.unknownTool ("Unknown tool: " ++ toolName), state)

/-- Embeds the complete_task case of executeTool in src/lib/ai/gemini.ts
(lines 273-282), the sequential variant of the module: there the result
prefers the final_image_base64 value echoed by the model and only falls
back to state.currentImage when that value is absent or empty and the
success flag is set. -/
def executeToolV1CompleteTask (args : ToolCallArgs) (state : AgentState) :
    ToolResult × AgentState :=
  (.completeOk args.success args.message
    (jsOrOpt args.final_image_base64
      (if args.success then state.currentImage else none)),
   { state with phase := "complete" })

/-! ## Orchestration loop (runAgentLoop of part_005, lines 842-1141) -/

structure FunctionCall where
  name : String
  args : ToolCallArgs
deriving DecidableEq

/-- One part of a model candidate response, restricted to the fields the
loop reads: a possible function call, the thought flag with its text, and a
continuation signature. -/
structure ResponsePart where
  functionCall : Option FunctionCall := none
  thought : Bool := false
  text : Option String := none
  thoughtSignature : Option String := none

/-- Function-call extraction (part_005 lines 983-985): the parts carrying a
functionCall, in part order. -/
def candFunctionCalls (parts : List ResponsePart) : List FunctionCall :=
  parts.filterMap (fun p => p.functionCall)

/-- Thought extraction (part_005 lines 989-992): text of the parts flagged
as thoughts with truthy text, joined with newlines. -/
def candThoughts (parts : List ResponsePart) : String :=
  String.intercalate "\n"
    ((parts.filter (fun p => p.thought && (jsTruthy p.text).isSome)).filterMap
      (fun p => p.text))

/-- Primary thought signature (part_005 lines 995-998): first truthy
signature among the parts. -/
def candMainSignature (parts : List ResponsePart) : Option String :=
  (parts.filterMap (fun p => jsTruthy p.thoughtSignature)).head?

/-- Final bundle of a run, the resolved value of the runAgentLoop
promise. -/
structure RunResult where
  success : Bool
  image : Option String
  message : String
  history : List AgentAction
  constitution : Option BrandConstitution
deriving DecidableEq

/-- Environment of one run: the model responses and per-call tool oracles.
initFailure set means all four attempts of the initialization handshake
failed and the given error is thrown before the loop starts.  candidate i
is the first candidate of the response the loop inspects at iteration i
(none models a response without candidates).  sendFailure i set means all
three attempts of the turn exchange following iteration i failed, the
given string being the error of the exchange. -/
structure RunEnv where
  initFailure : Option String := none
  candidate : Nat → Option (List ResponsePart) := fun _ => none
  toolEnv : Nat → Nat → ToolEnv := fun _ _ => {}
  sendFailure : Nat → Option String := fun _ => none

/-- State every executor of one batch observes: the step counter is bumped
once per call at dispatch (part_005 line 1013) before any executor reads
the shared state object, and no executor reads the step field, so the
batch is dispatched against the pre-batch state with step advanced by the
batch size. -/
def dispatchState (state : AgentState) (n : Nat) : AgentState :=
  { state with step := state.step + n }

/-- Parallel fan-out of one batch (part_005 lines 1012-1030): every call
executes against the same dispatch state; a rejected executor promise
rejects the whole Promise.all. -/
def execBatch (envs : Nat → ToolEnv) (sDisp : AgentState) :
    List FunctionCall → Nat →
    Except String (List (FunctionCall × ToolResult × AgentState))
  | [], _ => .ok []
  | fc :: rest, k =>
    match executeTool fc.name fc.args sDisp (envs k) with
    | .error e => .error e
    | .ok pr =>
      match execBatch envs sDisp rest (k + 1) with
      | .error e => .error e
      | .ok tail => .ok ((fc, pr.1, pr.2) :: tail)

/-- Action record appended per result (part_005 lines 1037-1044);
thoughts-or-undefined makes an empty thought string absent. -/
def mkAgentAction (thoughts : String) (signature : Option String)
    (fc : FunctionCall) (result : ToolResult) : AgentAction :=
  { tool := fc.name, input := fc.args, output := result,
    thinking := jsTruthy (some thoughts), thoughtSignature := signature }

/-- Terminal bundle returned when the merge loop reaches a complete_task
result (part_005 lines 1058-1066).  The second branch is unreachable in
the loop because executeTool on the complete_task name always yields a
completeOk result. -/
def completionBundle (result : ToolResult) (state : AgentState) : RunResult :=
  match result with
  | .completeOk csuccess cmessage cfinal =>
    { success := csuccess
      image := jsOrOpt cfinal (jsTruthy state.currentImage)
      message := cmessage
      history := state.history
      constitution := state.constitution }
  | _ =>
    { success := false
      image := jsTruthy state.currentImage
      message := ""
      history := state.history
      constitution := state.constitution }

/-- Sequential merge of the completed batch (part_005 lines 1032-1068), in
request order.  Each step replays the statement
state equals spread of state, spread of newState, history of state: since
every delta object carries every field, the merge adopts the delta
wholesale and only pins the accumulated history, to which exactly one
action per result is then appended. -/
def mergeResults (thoughts : String) (signature : Option String) :
    List (FunctionCall × ToolResult × AgentState) → AgentState →
    AgentState ⊕ RunResult
  | [], state => .inl state
  | (fc, result, newState) :: rest, state =>
    let action := mkAgentAction thoughts signature fc result
    let merged : AgentState :=
      { newState with history := state.history ++ [action] }
    if fc.name = "complete_task" then .inr (completionBundle result merged)
    else mergeResults thoughts signature rest merged

/-- Fall-through bundle (part_005 lines 1134-1140) returned when the loop
ends without a completion call: no candidate, zero function calls, or the
iteration ceiling. -/
def fallthroughResult (state : AgentState) : RunResult :=
  { success := state.currentImage.isSome
    image := jsTruthy state.currentImage
    message := "Agent completed after " ++ toString state.attempts
      ++ " attempts. Best score: "
      ++ (match state.auditScore with
          | some n => if n = 0 then "N/A" else toString n
          | none => "N/A")
    history := state.history
    constitution := state.constitution }

/-- Graceful-degradation bundle (part_005 lines 1102-1108) returned when
the turn exchange exhausts its retries while a sufficiently large image is
in state. -/
def gracefulDegradationResult (state : AgentState) : RunResult :=
  { success := true
    image := state.currentImage
    message := "Generated image successfully! (Agent flow interrupted but image was created)"
    history := state.history
    constitution := state.constitution }

/-- Guard of the graceful-degradation branch (part_005 line 1100): a truthy
current image longer than 1000 characters. -/
def imageLongerThan1000 : Option String → Bool
  | some img => decide (img.length > 1000)
  | none => false

/-- Iteration ceiling of the agent loop (part_005 line 975). -/
def maxIterations : Nat := 8

/-- Loop body from iteration i with the given remaining fuel, returning the
settled value of the run together with the number of turn exchanges the
loop performed from this point on (each iteration performs at most one
turn exchange, inclusive of its bounded in-exchange retries).  The dead
safeguard after the retry loop (part_005 lines 1121-1130) is unreachable,
because the retry loop only exits by success, by returning the
graceful-degradation bundle or by throwing, and is not modelled. -/
def runFrom (env : RunEnv) : Nat → AgentState → Nat →
    (Except String RunResult) × Nat
  | 0, state, _ => (.ok (fallthroughResult state), 0)
  | fuel + 1, state, i =>
    match env.candidate i with
    | none => (.ok (fallthroughResult state), 0)
    | some parts =>
      let functionCalls := candFunctionCalls parts
      if functionCalls.isEmpty then (.ok (fallthroughResult state), 0)
      else
        let sDisp := dispatchState state functionCalls.length
        match execBatch (env.toolEnv i) sDisp functionCalls 0 with
        | .error e => (.error e, 0)
        | .ok items =>
          match mergeResults (candThoughts parts) (candMainSignature parts)
              items sDisp with
          | .inr bundle => (.ok bundle, 0)
          | .inl state1 =>
            match env.sendFailure i with
            | none =>
              ((runFrom env fuel state1 (i + 1)).1,
               (runFrom env fuel state1 (i + 1)).2 + 1)
            | some err =>
              if imageLongerThan1000 state1.currentImage then
                (.ok (gracefulDegradationResult state1), 1)
              else (.error err, 1)

/-- Initial agent state (part_005 lines 877-887). -/
def initialAgentState (canvasElements : List CanvasElement)
    (savedConstitution : Option BrandConstitution) : AgentState :=
  { step := 0, phase := "planning", constitution := savedConstitution,
    currentImage := none, auditScore := none, attempts := 0, maxAttempts := 3,
    history := [], canvasElements := canvasElements }

/-- Embeds runAgentLoop of src/unnamed/part_005 (lines 842-1141): the
initialization handshake (throwing when its four attempts are exhausted)
followed by the bounded loop. -/
def runAgentLoop (env : RunEnv) (canvasElements : List CanvasElement)
    (savedConstitution : Option BrandConstitution) : Except String RunResult :=
  match env.initFailure with
  | some err => .error err
  | none =>
    (runFrom env maxIterations (initialAgentState canvasElements savedConstitution) 0).1

/-- Number of turn exchanges the loop of runAgentLoop performs (the
initialization handshake precedes the loop and is not a loop turn
exchange). -/
def loopExchangeCount (env : RunEnv) (canvasElements : List CanvasElement)
    (savedConstitution : Option BrandConstitution) : Nat :=
  match env.initFailure with
  | some _ => 0
  | none =>
    (runFrom env maxIterations (initialAgentState canvasElements savedConstitution) 0).2

/-! ## Accepted response shapes for style-profile normalization

A payload record carries the underlying values of one style profile; each
shape function renders it in one of the response shapes the normalizer
accepts: the canonical nested object, the flat object with alternate key
names, and the variant in which visual_identity is the color array
itself. -/

structure ProfilePayload where
  colors : List String
  style : String
  styleDesc : String
  forbidden : List String
  tone : String
  keywords : List String
  nudity : String
  political : String

/-- Canonical nested response shape. -/
def nestedShape (p : ProfilePayload) : ConstitutionJson :=
  { visual_identity :=
      some (.obj (some p.colors) (some p.style) (some p.styleDesc) (some p.forbidden))
    voice := some (.obj (some p.tone) (some p.keywords))
    risk_thresholds := some (.obj (some p.nudity) (some p.political)) }

/-- Flat response shape with the alternate key names the normalizer
probes (color_palette, voice_tone, root-level keywords and styles). -/
def flatShape (p : ProfilePayload) : ConstitutionJson :=
  { color_palette := some p.colors
    photography_style := some p.style
    style_description := some p.styleDesc
    forbidden_elements := some p.forbidden
    voice_tone := some p.tone
    keywords := some p.keywords
    risk_thresholds := some (.obj (some p.nudity) (some p.political)) }

/-- Shape in which visual_identity is the color array directly. -/
def arrayShape (p : ProfilePayload) : ConstitutionJson :=
  { visual_identity := some (.arr p.colors)
    photography_style := some p.style
    style_description := some p.styleDesc
    forbidden_elements := some p.forbidden
    voice_tone := some p.tone
    keywords := some p.keywords
    risk_thresholds := some (.obj (some p.nudity) (some p.political)) }

/-- Response carrying none of the probed fields. -/
def emptyConstitutionResponse : ConstitutionJson := {}

/-! ## Claim C7 -/

/-- Claim C7, counterexample: on the response with every field missing, the
normalizer of part_005 does not return the fixed default profile.  The
style_description fallback is the first sentence of the photography style
with a period appended, which yields the default photography style plus a
trailing period, while the default profile carries the same string without
the period. -/
theorem c7_counterexample :
    (validateAndSanitizeConstitution emptyConstitutionResponse).visual_identity.style_description
        = "Modern, bold, high contrast." ∧
    getDefaultConstitution.visual_identity.style_description
        = "Modern, bold, high contrast" ∧
    validateAndSanitizeConstitution emptyConstitutionResponse ≠ getDefaultConstitution := by
  refine ⟨rfl, rfl, by decide⟩

/-- Claim C7, amended: normalization of a style-profile response is
identical across the three accepted shapes (nested canonical, flat with
alternate key names, visual_identity as a color array), and a response with
every field missing normalizes to the default profile in every field
except style_description, which is filled from the first sentence of the
(defaulted) photography style with a trailing period rather than from the
default profile. -/
theorem c7_shape_normalization :
    (∀ p : ProfilePayload,
      validateAndSanitizeConstitution (nestedShape p)
          = validateAndSanitizeConstitution (flatShape p) ∧
      validateAndSanitizeConstitution (nestedShape p)
          = validateAndSanitizeConstitution (arrayShape p)) ∧
    validateAndSanitizeConstitution emptyConstitutionResponse =
      { getDefaultConstitution with
          visual_identity :=
            { getDefaultConstitution.visual_identity with
                style_description := "Modern, bold, high contrast." } } :=
  ⟨fun _ => ⟨rfl, rfl⟩, rfl⟩

/-- Sample payload at which the shape theorems are instantiated. -/
def c7SamplePayload : ProfilePayload :=
  { colors := ["#112233", "#AABBCC"]
    style := "Bauhaus grid composition. Clean surfaces."
    styleDesc := "Bauhaus minimalism."
    forbidden := ["clutter"]
    tone := "Calm and precise"
    keywords := ["modern", "geometric"]
    nudity := "STRICT_ZERO_TOLERANCE"
    political := "ALLOW_SATIRE" }

/-- Witness for c7_shape_normalization at a concrete payload. -/
theorem c7_witness :
    validateAndSanitizeConstitution (nestedShape c7SamplePayload)
      = validateAndSanitizeConstitution (flatShape c7SamplePayload) :=
  (c7_shape_normalization.1 c7SamplePayload).1

/-! ## Claim C6 -/

/-- Claim C6, counterexample: a compliance response carrying an explicit
boolean pass flag that disagrees with the numeric score is sanitized into a
result whose pass flag is false although the score is 95, so pass is not
equivalent to score at least 90. -/
theorem c6_counterexample :
    ¬(((validateAndSanitizeAuditResult
          { compliance_score := some 95, pass := some (.bool false) }).pass = true) ↔
      90 ≤ (validateAndSanitizeAuditResult
          { compliance_score := some 95, pass := some (.bool false) }).compliance_score) := by
  decide

/-- Claim C6, amended: the sanitized pass flag is equivalent to the
compliance score being at least 90 exactly when the remote response carries
no explicit boolean pass flag and no string pass flag equal to the literal
true; an explicit boolean flag (or that string literal) takes precedence
over the numeric threshold. -/
theorem c6_pass_iff_score (data : AuditJson)
    (hb : ∀ b, data.pass ≠ some (JPass.bool b))
    (hs : data.pass ≠ some (JPass.str "true")) :
    (validateAndSanitizeAuditResult data).pass = true ↔
      90 ≤ (validateAndSanitizeAuditResult data).compliance_score := by
  simp only [validateAndSanitizeAuditResult]
  have hclamp : (90 ≤ max 0 (min 100 (rawAuditScore data))) ↔ 90 ≤ rawAuditScore data := by
    omega
  rw [hclamp]
  unfold auditPassFlag
  cases hp : data.pass with
  | none => simp
  | some jp =>
    cases jp with
    | bool b => exact absurd hp (hb b)
    | str s =>
      have hne : s ≠ "true" := fun h => hs (h ▸ hp)
      simp [hne]

/-- Witness for c6_pass_iff_score: a response with a numeric score and no
pass flag. -/
theorem c6_witness :
    (validateAndSanitizeAuditResult { compliance_score := some 95 }).pass = true ↔
      90 ≤ (validateAndSanitizeAuditResult { compliance_score := some 95 }).compliance_score :=
  c6_pass_iff_score { compliance_score := some 95 } (by decide) (by decide)

/-! ## Claim C10 -/

/-- Bounds of the sanitized compliance score. -/
lemma sanitizedScoreBounds (data : AuditJson) :
    0 ≤ (validateAndSanitizeAuditResult data).compliance_score ∧
      (validateAndSanitizeAuditResult data).compliance_score ≤ 100 := by
  simp only [validateAndSanitizeAuditResult]
  omega

/-- Bounds of the fallback score. -/
lemma fallbackScoreBounds :
    0 ≤ fallbackAuditResult.compliance_score ∧
      fallbackAuditResult.compliance_score ≤ 100 := by
  decide

/-- Claim C10: auditImageCompliance is total (every failure lands in the
catch handler): a remote error, a response without a balanced JSON object,
and an unparseable JSON string all yield the fixed fallback result with
score 50, pass false, no issues and the fixed message; and every returned
result has its compliance score clamped into 0..100. -/
theorem c10_audit_never_throws (parse : String → Option AuditJson)
    (outcome : Except String String) :
    (0 ≤ (auditImageCompliance parse outcome).compliance_score ∧
      (auditImageCompliance parse outcome).compliance_score ≤ 100) ∧
    (∀ e, outcome = Except.error e →
      auditImageCompliance parse outcome = fallbackAuditResult) ∧
    (∀ t, outcome = Except.ok t → extractBalancedJson t = "" →
      auditImageCompliance parse outcome = fallbackAuditResult) ∧
    (∀ t, outcome = Except.ok t → parse (extractBalancedJson t) = none →
      auditImageCompliance parse outcome = fallbackAuditResult) := by
  refine ⟨?_, ?_, ?_, ?_⟩
  · cases outcome with
    | error e => exact fallbackScoreBounds
    | ok t =>
      simp only [auditImageCompliance]
      by_cases hj : extractBalancedJson t = ""
      · rw [if_pos hj]; exact fallbackScoreBounds
      · rw [if_neg hj]
        cases hp : parse (extractBalancedJson t) with
        | none => exact fallbackScoreBounds
        | some d => exact sanitizedScoreBounds d
  · intro e he; subst he; rfl
  · intro t ht hj; subst ht; simp [auditImageCompliance, hj]
  · intro t ht hp; subst ht
    simp only [auditImageCompliance]
    by_cases hj : extractBalancedJson t = ""
    · simp [hj]
    · simp [hj, hp]

/-- Witness for c10_audit_never_throws at a failing remote call. -/
theorem c10_witness :
    auditImageCompliance (fun _ => none) (Except.error "remote error")
        = fallbackAuditResult ∧
      0 ≤ (auditImageCompliance (fun _ => none)
        (Except.error "remote error")).compliance_score :=
  ⟨(c10_audit_never_throws (fun _ => none) (Except.error "remote error")).2.1
      "remote error" rfl,
   (c10_audit_never_throws (fun _ => none) (Except.error "remote error")).1.1⟩

/-! ## Claim C8 -/

/-- Recognizer used by the C8 counterexample: whether an executeTool result
carries a produced style profile. -/
def resultProducesProfile : Except String (ToolResult × AgentState) → Bool
  | .ok (.analyzeOk _, _) => true
  | _ => false

/-- Claim C8, counterexample: invoked with zero canvas elements, the
style-extraction executor does not produce the default profile at all; it
returns a soft failure result with success false and an error message, and
no profile reaches the state. -/
theorem c8_counterexample :
    executeTool "analyze_canvas" {} (initialAgentState [] none) {} =
      .ok (.analyzeFail "No canvas elements found in state",
        initialAgentState [] none) ∧
    resultProducesProfile
        (executeTool "analyze_canvas" {} (initialAgentState [] none) {}) = false ∧
    (initialAgentState [] none).constitution = none :=
  ⟨rfl, rfl, rfl⟩

/-- Claim C8, amended: with zero canvas elements the style-extraction
executor returns a soft failure result (success false with an error
message) to the model instead of throwing, and leaves the state unchanged;
the default-profile fallback lives inside analyzeCanvasForConstitution,
which is only reached when at least one canvas element exists. -/
theorem c8_empty_canvas_soft_failure (args : ToolCallArgs) (s : AgentState)
    (env : ToolEnv) (h : s.canvasElements = []) :
    executeTool "analyze_canvas" args s env =
      .ok (.analyzeFail "No canvas elements found in state", s) := by
  simp [executeTool, h]

/-- Witness for c8_empty_canvas_soft_failure at the empty initial state. -/
theorem c8_witness :
    executeTool "analyze_canvas" {} (initialAgentState [] (some getDefaultConstitution)) {} =
      .ok (.analyzeFail "No canvas elements found in state",
        initialAgentState [] (some getDefaultConstitution)) :=
  c8_empty_canvas_soft_failure {} (initialAgentState [] (some getDefaultConstitution)) {} rfl

/-! ## Claim C5 -/

/-- Agent state with a real generated artifact, used by the C5
counterexample. -/
def c5State : AgentState :=
  { initialAgentState [] none with currentImage := some "REAL_IMAGE_DATA" }

/-- Claim C5, counterexample: the complete_task executor of the gemini.ts
variant prefers the final_image_base64 value echoed by the model; with a
placeholder string echoed and a real artifact in state, the bundle
references the placeholder, not state.currentImage. -/
theorem c5_counterexample :
    (executeToolV1CompleteTask
        { success := true, message := "Done", final_image_base64 := some "input_file_1.png" }
        c5State).1 =
      ToolResult.completeOk true "Done" (some "input_file_1.png") ∧
    c5State.currentImage = some "REAL_IMAGE_DATA" ∧
    (some "input_file_1.png" : Option String) ≠ c5State.currentImage := by
  refine ⟨rfl, rfl, by decide⟩

/-- Claim C5, amended: the part_005 complete_task executor always
references state.currentImage as the final artifact (with an empty string
collapsing to null), ignoring any final_image_base64 value echoed by the
model; the gemini.ts variant instead prefers a non-empty echoed value. -/
theorem c5_final_artifact_from_state (args : ToolCallArgs) (s : AgentState)
    (env : ToolEnv) :
    executeTool "complete_task" args s env =
      .ok (.completeOk args.success args.message (jsTruthy s.currentImage),
        { s with phase := "complete" }) := rfl

/-- Witness for c5_final_artifact_from_state: even with a placeholder
echoed in the arguments, the part_005 executor reports the artifact from
state. -/
theorem c5_witness :
    executeTool "complete_task"
        { success := true, message := "Done", final_image_base64 := some "input_file_1.png" }
        c5State {} =
      .ok (.completeOk true "Done" (jsTruthy c5State.currentImage),
        { c5State with phase := "complete" }) :=
  c5_final_artifact_from_state
    { success := true, message := "Done", final_image_base64 := some "input_file_1.png" }
    c5State {}

/-! ## Supporting lemmas about the loop -/

lemma runFrom_succ_none (env : RunEnv) (fuel i : Nat) (s : AgentState)
    (hc : env.candidate i = none) :
    runFrom env (fuel + 1) s i = (.ok (fallthroughResult s), 0) := by
  rw [runFrom, hc]

lemma runFrom_succ_nocalls (env : RunEnv) (fuel i : Nat) (s : AgentState)
    (parts : List ResponsePart) (hc : env.candidate i = some parts)
    (he : (candFunctionCalls parts).isEmpty = true) :
    runFrom env (fuel + 1) s i = (.ok (fallthroughResult s), 0) := by
  rw [runFrom, hc]
  simp [he]

lemma runFrom_succ_of_candidate (env : RunEnv) (fuel i : Nat) (s : AgentState)
    (parts : List ResponsePart) (hc : env.candidate i = some parts)
    (hne : (candFunctionCalls parts).isEmpty = false) :
    runFrom env (fuel + 1) s i =
      match execBatch (env.toolEnv i)
          (dispatchState s (candFunctionCalls parts).length)
          (candFunctionCalls parts) 0 with
      | .error e => (.error e, 0)
      | .ok items =>
        match mergeResults (candThoughts parts) (candMainSignature parts) items
            (dispatchState s (candFunctionCalls parts).length) with
        | .inr bundle => (.ok bundle, 0)
        | .inl state1 =>
          match env.sendFailure i with
          | none =>
            ((runFrom env fuel state1 (i + 1)).1,
             (runFrom env fuel state1 (i + 1)).2 + 1)
          | some err =>
            if imageLongerThan1000 state1.currentImage then
              (.ok (gracefulDegradationResult state1), 1)
            else (.error err, 1) := by
  rw [runFrom, hc]
  simp [hne]

lemma executeTool_complete_eq (args : ToolCallArgs) (s : AgentState) (env : ToolEnv) :
    executeTool "complete_task" args s env =
      .ok (.completeOk args.success args.message (jsTruthy s.currentImage),
        { s with phase := "complete" }) := rfl

lemma execBatch_cons_ok (envs : Nat → ToolEnv) (sDisp : AgentState)
    (fc : FunctionCall) (rest : List FunctionCall) (k : Nat)
    (items : List (FunctionCall × ToolResult × AgentState))
    (h : execBatch envs sDisp (fc :: rest) k = .ok items) :
    ∃ pr tail, executeTool fc.name fc.args sDisp (envs k) = .ok pr ∧
      execBatch envs sDisp rest (k + 1) = .ok tail ∧
      items = (fc, pr.1, pr.2) :: tail := by
  simp only [execBatch] at h
  cases hx : executeTool fc.name fc.args sDisp (envs k) with
  | error e => rw [hx] at h; simp at h
  | ok pr =>
    rw [hx] at h
    cases hb : execBatch envs sDisp rest (k + 1) with
    | error e => rw [hb] at h; simp at h
    | ok tail =>
      rw [hb] at h
      simp at h
      exact ⟨pr, tail, rfl, rfl, h.symm⟩

lemma execBatch_length (envs : Nat → ToolEnv) (sDisp : AgentState) :
    ∀ (fcs : List FunctionCall) (k : Nat)
      (items : List (FunctionCall × ToolResult × AgentState)),
      execBatch envs sDisp fcs k = .ok items → items.length = fcs.length := by
  intro fcs
  induction fcs with
  | nil =>
    intro k items h
    simp only [execBatch] at h
    simp at h
    simp [h.symm]
  | cons fc rest ih =>
    intro k items h
    obtain ⟨pr, tail, _, hb, hitems⟩ := execBatch_cons_ok envs sDisp fc rest k items h
    subst hitems
    simp [ih (k + 1) tail hb]

lemma completionBundle_history (r : ToolResult) (s : AgentState) :
    (completionBundle r s).history = s.history := by
  cases r <;> rfl

lemma mergeResults_history (thoughts : String) (signature : Option String) :
    ∀ (items : List (FunctionCall × ToolResult × AgentState)) (s : AgentState),
      (∀ s1, mergeResults thoughts signature items s = .inl s1 →
        s1.history.length = s.history.length + items.length) ∧
      (∀ b, mergeResults thoughts signature items s = .inr b →
        b.history.length ≤ s.history.length + items.length) := by
  intro items
  induction items with
  | nil =>
    intro s
    constructor
    · intro s1 h
      simp only [mergeResults] at h
      simp at h
      simp [h.symm]
    · intro b h
      simp only [mergeResults] at h
      simp at h
  | cons it rest ih =>
    intro s
    obtain ⟨fc, result, newState⟩ := it
    constructor
    · intro s1 h
      simp only [mergeResults] at h
      by_cases hc : fc.name = "complete_task"
      · rw [if_pos hc] at h; simp at h
      · rw [if_neg hc] at h
        have hlen := (ih _).1 s1 h
        simp only [List.length_append, List.length_cons, List.length_nil] at hlen ⊢
        omega
    · intro b h
      simp only [mergeResults] at h
      by_cases hc : fc.name = "complete_task"
      · rw [if_pos hc] at h
        simp at h
        have hh := completionBundle_history result
          { newState with
              history := s.history ++ [mkAgentAction thoughts signature fc result] }
        rw [← h] at *
        simp only [completionBundle_history, List.length_append, List.length_cons,
          List.length_nil]
        omega
      · rw [if_neg hc] at h
        have hlen := (ih _).2 b h
        simp only [List.length_append, List.length_cons, List.length_nil] at hlen ⊢
        omega

lemma runFrom_exchanges_le (env : RunEnv) :
    ∀ (fuel : Nat) (s : AgentState) (i : Nat), (runFrom env fuel s i).2 ≤ fuel := by
  intro fuel
  induction fuel with
  | zero => intro s i; simp [runFrom]
  | succ n ih =>
    intro s i
    cases hc : env.candidate i with
    | none => simp [runFrom_succ_none env n i s hc]
    | some parts =>
      cases he : (candFunctionCalls parts).isEmpty with
      | true => simp [runFrom_succ_nocalls env n i s parts hc he]
      | false =>
        rw [runFrom_succ_of_candidate env n i s parts hc he]
        cases hb : execBatch (env.toolEnv i)
            (dispatchState s (candFunctionCalls parts).length)
            (candFunctionCalls parts) 0 with
        | error e => simp
        | ok items =>
          simp only
          cases hm : mergeResults (candThoughts parts) (candMainSignature parts) items
              (dispatchState s (candFunctionCalls parts).length) with
          | inr bundle => simp
          | inl state1 =>
            simp only
            cases hf : env.sendFailure i with
            | none =>
              simp only
              have := ih state1 (i + 1)
              omega
            | some err =>
              simp only
              by_cases himg : imageLongerThan1000 state1.currentImage
              · simp [himg]
              · simp [himg]

lemma runFrom_history_le (env : RunEnv) (K : Nat)
    (hK : ∀ i parts, env.candidate i = some parts →
      (candFunctionCalls parts).length ≤ K) :
    ∀ (fuel : Nat) (s : AgentState) (i : Nat) (res : RunResult),
      (runFrom env fuel s i).1 = .ok res →
      res.history.length ≤ s.history.length + fuel * K := by
  intro fuel
  induction fuel with
  | zero =>
    intro s i res h
    simp [runFrom] at h
    simp [← h, fallthroughResult]
  | succ n ih =>
    intro s i res h
    have hmul : (n + 1) * K = n * K + K := by ring
    cases hc : env.candidate i with
    | none =>
      rw [runFrom_succ_none env n i s hc] at h
      simp at h
      simp [← h, fallthroughResult]
    | some parts =>
      have hKi := hK i parts hc
      cases he : (candFunctionCalls parts).isEmpty with
      | true =>
        rw [runFrom_succ_nocalls env n i s parts hc he] at h
        simp at h
        simp [← h, fallthroughResult]
      | false =>
        rw [runFrom_succ_of_candidate env n i s parts hc he] at h
        cases hb : execBatch (env.toolEnv i)
            (dispatchState s (candFunctionCalls parts).length)
            (candFunctionCalls parts) 0 with
        | error e => rw [hb] at h; simp at h
        | ok items =>
          rw [hb] at h
          have hilen := execBatch_length (env.toolEnv i)
            (dispatchState s (candFunctionCalls parts).length)
            (candFunctionCalls parts) 0 items hb
          simp only at h
          cases hm : mergeResults (candThoughts parts) (candMainSignature parts) items
              (dispatchState s (candFunctionCalls parts).length) with
          | inr bundle =>
            rw [hm] at h
            simp at h
            have hblen := (mergeResults_history (candThoughts parts)
              (candMainSignature parts) items
              (dispatchState s (candFunctionCalls parts).length)).2 bundle hm
            simp only [dispatchState] at hblen
            rw [← h]
            omega
          | inl state1 =>
            rw [hm] at h
            have hslen := (mergeResults_history (candThoughts parts)
              (candMainSignature parts) items
              (dispatchState s (candFunctionCalls parts).length)).1 state1 hm
            simp only [dispatchState] at hslen
            simp only at h
            cases hf : env.sendFailure i with
            | none =>
              rw [hf] at h
              simp only at h
              have := ih state1 (i + 1) res h
              omega
            | some err =>
              rw [hf] at h
              simp only at h
              by_cases himg : imageLongerThan1000 state1.currentImage
              · rw [if_pos himg] at h
                simp at h
                rw [← h]
                simp only [gracefulDegradationResult]
                omega
              · rw [if_neg himg] at h
                simp at h

lemma batchComplete (thoughts : String) (signature : Option String)
    (envs : Nat → ToolEnv) (sDisp : AgentState) :
    ∀ (fcs : List FunctionCall) (k0 : Nat)
      (items : List (FunctionCall × ToolResult × AgentState))
      (s : AgentState) (k : Nat) (hk : k < fcs.length),
      execBatch envs sDisp fcs k0 = .ok items →
      (fcs.get ⟨k, hk⟩).name = "complete_task" →
      (∀ j (hj : j < fcs.length), j < k → (fcs.get ⟨j, hj⟩).name ≠ "complete_task") →
      ∃ bundle, mergeResults thoughts signature items s = .inr bundle ∧
        bundle.success = (fcs.get ⟨k, hk⟩).args.success := by
  intro fcs
  induction fcs with
  | nil => intro k0 items s k hk; exact absurd hk (by simp)
  | cons fc rest ih =>
    intro k0 items s k hk hexec hname hfirst
    obtain ⟨pr, tail, hx, hb, hitems⟩ :=
      execBatch_cons_ok envs sDisp fc rest k0 items hexec
    subst hitems
    cases k with
    | zero =>
      have hname0 : fc.name = "complete_task" := hname
      rw [hname0, executeTool_complete_eq] at hx
      have hpr := Except.ok.inj hx
      simp only [mergeResults]
      rw [if_pos hname0]
      refine ⟨_, rfl, ?_⟩
      rw [← hpr]
      rfl
    | succ j =>
      have hfc : fc.name ≠ "complete_task" := by
        have := hfirst 0 (by simp) (Nat.succ_pos j)
        exact this
      simp only [mergeResults]
      rw [if_neg hfc]
      have hk1 : j < rest.length := by
        have := hk
        simp only [List.length_cons] at this
        omega
      have hname1 : (rest.get ⟨j, hk1⟩).name = "complete_task" := hname
      have hfirst1 : ∀ j2 (hj2 : j2 < rest.length), j2 < j →
          (rest.get ⟨j2, hj2⟩).name ≠ "complete_task" := by
        intro j2 hj2 hlt
        exact hfirst (j2 + 1) (by simp only [List.length_cons]; omega)
          (Nat.succ_lt_succ hlt)
      obtain ⟨bundle, hm, hs⟩ := ih (k0 + 1) tail _ j hk1 hb hname1 hfirst1
      exact ⟨bundle, hm, hs⟩

/-! ## Claim C1 -/

/-- Claim C1: if at any reachable iteration the model response carries a
batch whose k-th call (the first completion call of the batch) is
complete_task, and the batch executes without a rejected promise, then the
loop returns right there (performing no further turn exchange) and the
success field of the bundle is exactly the success flag carried by the
arguments of that completion call. -/
theorem c1_completion_terminates (env : RunEnv) (fuel i : Nat) (s : AgentState)
    (parts : List ResponsePart)
    (items : List (FunctionCall × ToolResult × AgentState)) (k : Nat)
    (hc : env.candidate i = some parts)
    (hk : k < (candFunctionCalls parts).length)
    (hname : ((candFunctionCalls parts).get ⟨k, hk⟩).name = "complete_task")
    (hfirst : ∀ j (hj : j < (candFunctionCalls parts).length), j < k →
      ((candFunctionCalls parts).get ⟨j, hj⟩).name ≠ "complete_task")
    (hexec : execBatch (env.toolEnv i)
      (dispatchState s (candFunctionCalls parts).length)
      (candFunctionCalls parts) 0 = .ok items) :
    ∃ bundle, (runFrom env (fuel + 1) s i).1 = .ok bundle ∧
      (runFrom env (fuel + 1) s i).2 = 0 ∧
      bundle.success = ((candFunctionCalls parts).get ⟨k, hk⟩).args.success := by
  have hne : (candFunctionCalls parts).isEmpty = false := by
    cases hl : candFunctionCalls parts with
    | nil => rw [hl] at hk; exact absurd hk (by simp)
    | cons a l => rfl
  obtain ⟨bundle, hm, hs⟩ :=
    batchComplete (candThoughts parts) (candMainSignature parts) (env.toolEnv i)
      (dispatchState s (candFunctionCalls parts).length) (candFunctionCalls parts)
      0 items (dispatchState s (candFunctionCalls parts).length) k hk hexec hname hfirst
  rw [runFrom_succ_of_candidate env fuel i s parts hc hne]
  rw [hexec]
  simp only
  rw [hm]
  exact ⟨bundle, rfl, rfl, hs⟩

/-- Completion call of the C1 witness. -/
def c1Call : FunctionCall :=
  { name := "complete_task", args := { success := true, message := "done" } }

/-- Model response carrying one complete_task call with success true. -/
def c1Parts : List ResponsePart := [{ functionCall := some c1Call }]

/-- Run environment for the C1 witness: the first turn requests the
completion call. -/
def c1Env : RunEnv := { candidate := fun i => if i = 0 then some c1Parts else none }

/-- Batch execution record of the C1 witness turn. -/
def c1Items : List (FunctionCall × ToolResult × AgentState) :=
  [(c1Call, .completeOk true "done" none,
    { step := 1, phase := "complete", constitution := none, currentImage := none,
      auditScore := none, attempts := 0, maxAttempts := 3, history := [],
      canvasElements := [] })]

/-- Witness for c1_completion_terminates at a concrete run. -/
theorem c1_witness :
    ∃ bundle, (runFrom c1Env 8 (initialAgentState [] none) 0).1 = .ok bundle ∧
      (runFrom c1Env 8 (initialAgentState [] none) 0).2 = 0 ∧
      bundle.success =
        ((candFunctionCalls c1Parts).get ⟨0, by decide⟩).args.success :=
  c1_completion_terminates c1Env 7 0 (initialAgentState [] none) c1Parts c1Items 0
    rfl (by decide) rfl (fun j hj hlt => absurd hlt (Nat.not_lt_zero j)) rfl

/-! ## Claim C2 -/

/-- Claim C2: the loop of runAgentLoop performs at most maxIterations (8)
turn exchanges, and whenever the run settles with a bundle, the recorded
history is no longer than maxIterations times any per-turn bound on the
number of tool calls the model requests in a single turn. -/
theorem c2_iteration_and_history_bound (env : RunEnv)
    (elems : List CanvasElement) (savedC : Option BrandConstitution) (K : Nat)
    (hK : ∀ i parts, env.candidate i = some parts →
      (candFunctionCalls parts).length ≤ K) :
    loopExchangeCount env elems savedC ≤ maxIterations ∧
    ∀ res, runAgentLoop env elems savedC = .ok res →
      res.history.length ≤ maxIterations * K := by
  constructor
  · cases hif : env.initFailure with
    | some err => simp [loopExchangeCount, hif]
    | none =>
      simp only [loopExchangeCount, hif]
      exact runFrom_exchanges_le env maxIterations _ 0
  · intro res h
    cases hif : env.initFailure with
    | some err => simp [runAgentLoop, hif] at h
    | none =>
      simp only [runAgentLoop, hif] at h
      have hb := runFrom_history_le env K hK maxIterations
        (initialAgentState elems savedC) 0 res h
      simpa [initialAgentState] using hb

/-- Environment of the C2 witness: a model that never answers with a
candidate. -/
def c2Env : RunEnv := {}

/-- Witness for c2_iteration_and_history_bound at a concrete run with at
most one tool call per turn. -/
theorem c2_witness :
    loopExchangeCount c2Env [] none ≤ maxIterations ∧
    (fallthroughResult (initialAgentState [] none)).history.length ≤
      maxIterations * 1 :=
  ⟨(c2_iteration_and_history_bound c2Env [] none 1 (fun _ _ h => nomatch h)).1,
   (c2_iteration_and_history_bound c2Env [] none 1 (fun _ _ h => nomatch h)).2
      (fallthroughResult (initialAgentState [] none)) rfl⟩

/-! ## Claim C3 -/

/-- Actions appended for one batch, in request order. -/
def batchActions (thoughts : String) (signature : Option String)
    (items : List (FunctionCall × ToolResult × AgentState)) : List AgentAction :=
  items.map (fun it => mkAgentAction thoughts signature it.1 it.2.1)

/-- Delta state of the last call of a batch (the pre-batch state when the
batch is empty). -/
def lastDeltaState (s : AgentState) :
    List (FunctionCall × ToolResult × AgentState) → AgentState
  | [] => s
  | [it] => it.2.2
  | _ :: it2 :: rest => lastDeltaState s (it2 :: rest)

lemma lastDeltaState_indep (s s1 : AgentState) :
    ∀ (it : FunctionCall × ToolResult × AgentState)
      (l : List (FunctionCall × ToolResult × AgentState)),
      lastDeltaState s (it :: l) = lastDeltaState s1 (it :: l) := by
  intro it l
  induction l generalizing it with
  | nil => rfl
  | cons it2 l2 ih => simp only [lastDeltaState]; exact ih it2

/-- Batch of the C3 counterexample: an image generation followed by a
trend search in the same turn. -/
def c3Batch : List FunctionCall :=
  [{ name := "generate_image", args := {} }, { name := "search_trends", args := {} }]

/-- Tool oracles of the C3 counterexample: the generation succeeds with an
image, the search returns a summary. -/
def c3ToolEnvs : Nat → ToolEnv :=
  fun k => if k = 0 then { generateOutcome := some "IMGDATA" }
    else { searchOutcome := "trend summary" }

/-- Dispatch state of the C3 counterexample turn. -/
def c3DispatchedState : AgentState := dispatchState (initialAgentState [] none) 2

/-- Completed batch of the C3 counterexample: the generation delta carries
the new image, while the search delta still carries the pre-batch null
image because search_trends returns its input state unchanged. -/
def c3Items : List (FunctionCall × ToolResult × AgentState) :=
  [({ name := "generate_image", args := {} }, .generateOk,
     { c3DispatchedState with
         currentImage := some "IMGDATA"
         phase := "generating"
         attempts := 1 }),
   ({ name := "search_trends", args := {} }, .searchOk "trend summary",
     c3DispatchedState)]

/-- Actions recorded for the C3 counterexample turn, in request order. -/
def c3Action1 : AgentAction :=
  { tool := "generate_image", input := {}, output := .generateOk,
    thinking := none, thoughtSignature := none }

def c3Action2 : AgentAction :=
  { tool := "search_trends", input := {}, output := .searchOk "trend summary",
    thinking := none, thoughtSignature := none }

/-- Merged state after the C3 counterexample turn. -/
def c3MergedState : AgentState :=
  { c3DispatchedState with history := [c3Action1, c3Action2] }

/-- Claim C3, counterexample: in a batch of two calls where only the first
call writes currentImage, the merge of the second call restores the
pre-batch value: the merged state has a null currentImage although the
first delta wrote an image, so the merge of a later call does revert a
field that only an earlier call in the same batch wrote. -/
theorem c3_counterexample :
    execBatch c3ToolEnvs c3DispatchedState c3Batch 0 = .ok c3Items ∧
    c3Items.map (fun it => it.2.2.currentImage) = [some "IMGDATA", none] ∧
    mergeResults "" none c3Items c3DispatchedState = .inl c3MergedState ∧
    c3MergedState.currentImage = none :=
  ⟨rfl, rfl, rfl, rfl⟩

/-- Claim C3, amended: for a batch without a completion call, the merge
loop appends exactly one AgentAction per call to history in request order
(history is append-only), but state deltas are merged wholesale: the
state object returned by each call overwrites every non-history field of
the accumulator, so the final merged state is the delta of the last call in
request order with the accumulated history, and a later call whose delta
did not write a field reverts that field to the pre-batch value. -/
theorem c3_merge_semantics (thoughts : String) (signature : Option String) :
    ∀ (items : List (FunctionCall × ToolResult × AgentState)) (s : AgentState),
      (∀ it ∈ items, it.1.name ≠ "complete_task") →
      mergeResults thoughts signature items s =
        .inl { lastDeltaState s items with
                history := s.history ++ batchActions thoughts signature items } := by
  intro items
  induction items with
  | nil =>
    intro s _
    simp [mergeResults, lastDeltaState, batchActions]
  | cons it rest ih =>
    intro s hnc
    have h1 : it.1.name ≠ "complete_task" := hnc it (by simp)
    simp only [mergeResults]
    rw [if_neg h1]
    rw [ih _ (fun x hx => hnc x (by simp [hx]))]
    cases rest with
    | nil => simp [lastDeltaState, batchActions]
    | cons r rs =>
      simp only [lastDeltaState, batchActions, List.map_cons]
      rw [lastDeltaState_indep _ s r rs]
      simp [List.append_assoc]

/-- Witness for c3_merge_semantics at the concrete two-call batch. -/
theorem c3_witness :
    mergeResults "" none c3Items c3DispatchedState =
      .inl { lastDeltaState c3DispatchedState c3Items with
              history := c3DispatchedState.history ++ batchActions "" none c3Items } :=
  c3_merge_semantics "" none c3Items c3DispatchedState (by decide)

/-! ## Claim C4 -/

/-- Claim C4, amended: when the turn exchange after a merged batch fails
past its bounded retries, the loop returns the graceful-degradation success
bundle carrying the artifact exactly when the merged state holds a current
image longer than 1000 characters; with no image, or with an image of
length at most 1000, the exchange failure is propagated to the caller. -/
theorem c4_graceful_requires_large_artifact (env : RunEnv) (fuel i : Nat)
    (s : AgentState) (parts : List ResponsePart)
    (items : List (FunctionCall × ToolResult × AgentState))
    (state1 : AgentState) (err : String)
    (hc : env.candidate i = some parts)
    (hne : (candFunctionCalls parts).isEmpty = false)
    (hexec : execBatch (env.toolEnv i)
      (dispatchState s (candFunctionCalls parts).length)
      (candFunctionCalls parts) 0 = .ok items)
    (hmerge : mergeResults (candThoughts parts) (candMainSignature parts) items
      (dispatchState s (candFunctionCalls parts).length) = .inl state1)
    (hfail : env.sendFailure i = some err) :
    (runFrom env (fuel + 1) s i).1 =
      (if imageLongerThan1000 state1.currentImage then
        .ok (gracefulDegradationResult state1)
       else .error err) ∧
    (gracefulDegradationResult state1).success = true ∧
    (gracefulDegradationResult state1).image = state1.currentImage ∧
    (gracefulDegradationResult state1).history = state1.history := by
  rw [runFrom_succ_of_candidate env fuel i s parts hc hne]
  rw [hexec]
  simp only
  rw [hmerge]
  simp only
  rw [hfail]
  refine ⟨?_, rfl, rfl, rfl⟩
  by_cases himg : imageLongerThan1000 state1.currentImage
  · simp [himg]
  · simp [himg]

/-- Model response of the C4 runs: one generate_image call on the first
turn. -/
def c4Parts : List ResponsePart :=
  [{ functionCall := some { name := "generate_image", args := {} } }]

/-- Non-null artifact of 500 characters: long enough to pass the
length-over-100 validity check of generateImageWithNanoBanana, short
enough to fail the length-over-1000 graceful-degradation guard. -/
def shortImage : String := String.mk (List.replicate 500 's')

/-- Environment of the C4 counterexample: the generation succeeds with the
500-character artifact and the following turn exchange fails past its
retries. -/
def c4Env : RunEnv :=
  { candidate := fun i => if i = 0 then some c4Parts else none
    toolEnv := fun _ _ => { generateOutcome := some shortImage }
    sendFailure := fun i => if i = 0 then some "network boom" else none }

/-- Batch record of the C4 counterexample turn. -/
def c4Items : List (FunctionCall × ToolResult × AgentState) :=
  [({ name := "generate_image", args := {} }, .generateOk,
    { step := 1, phase := "generating", constitution := none,
      currentImage := some shortImage, auditScore := none, attempts := 1,
      maxAttempts := 3, history := [], canvasElements := [] })]

/-- Action recorded for the generation call of the C4 runs. -/
def c4Action : AgentAction :=
  { tool := "generate_image", input := {}, output := .generateOk,
    thinking := none, thoughtSignature := none }

/-- Merged state of the C4 counterexample turn: a non-null artifact. -/
def c4MergedState : AgentState :=
  { step := 1, phase := "generating", constitution := none,
    currentImage := some shortImage, auditScore := none, attempts := 1,
    maxAttempts := 3, history := [c4Action], canvasElements := [] }

set_option maxRecDepth 8192 in
/-- Claim C4, counterexample: with a non-null current image of length at
most 1000 in state, the exhausted turn exchange is propagated as an error
instead of yielding the success bundle the claim requires for every
non-null artifact. -/
theorem c4_counterexample :
    runAgentLoop c4Env [] none = .error "network boom" ∧
    execBatch (c4Env.toolEnv 0) (dispatchState (initialAgentState [] none) 1)
      (candFunctionCalls c4Parts) 0 = .ok c4Items ∧
    mergeResults (candThoughts c4Parts) (candMainSignature c4Parts) c4Items
      (dispatchState (initialAgentState [] none) 1) = .inl c4MergedState ∧
    c4MergedState.currentImage = some shortImage ∧
    imageLongerThan1000 c4MergedState.currentImage = false ∧
    shortImage.length = 500 :=
  ⟨rfl, rfl, rfl, rfl, rfl, rfl⟩

/-- Image of more than 1000 characters used by the C4 witness. -/
def longImage : String := String.mk (List.replicate 1500 'x')

/-- Environment of the C4 witness: like the counterexample but with a
large artifact. -/
def c4LongEnv : RunEnv :=
  { candidate := fun i => if i = 0 then some c4Parts else none
    toolEnv := fun _ _ => { generateOutcome := some longImage }
    sendFailure := fun i => if i = 0 then some "network boom" else none }

/-- Batch record of the C4 witness turn. -/
def c4LongItems : List (FunctionCall × ToolResult × AgentState) :=
  [({ name := "generate_image", args := {} }, .generateOk,
    { step := 1, phase := "generating", constitution := none,
      currentImage := some longImage, auditScore := none, attempts := 1,
      maxAttempts := 3, history := [], canvasElements := [] })]

/-- Merged state of the C4 witness turn. -/
def c4LongMergedState : AgentState :=
  { step := 1, phase := "generating", constitution := none,
    currentImage := some longImage, auditScore := none, attempts := 1,
    maxAttempts := 3, history := [c4Action], canvasElements := [] }

set_option maxRecDepth 8192 in
/-- Witness for c4_graceful_requires_large_artifact: with a large artifact
the exhausted exchange yields the graceful-degradation success bundle. -/
theorem c4_witness :
    (runFrom c4LongEnv 8 (initialAgentState [] none) 0).1 =
      .ok (gracefulDegradationResult c4LongMergedState) := by
  have h := c4_graceful_requires_large_artifact c4LongEnv 7 0
    (initialAgentState [] none) c4Parts c4LongItems c4LongMergedState
    "network boom" rfl rfl rfl rfl rfl
  rw [h.1]
  rfl

/-! ## Claim C9 -/

/-- Claim C9: whenever the loop exits without a completion call having been
dispatched (no candidate, zero tool calls, or the iteration ceiling), it
returns the fall-through bundle, whose success flag is true exactly when
state.currentImage is non-null, which carries that image when present, and
which includes the full accumulated history.  The non-empty-image
hypothesis holds for every state the loop reaches, because the
generate_image executor only stores a truthy image string. -/
theorem c9_fallthrough_bundle (env : RunEnv) (s : AgentState) (i fuel : Nat)
    (himg : s.currentImage ≠ some "") :
    (runFrom env 0 s i).1 = .ok (fallthroughResult s) ∧
    (env.candidate i = none →
      (runFrom env (fuel + 1) s i).1 = .ok (fallthroughResult s)) ∧
    (∀ parts, env.candidate i = some parts → candFunctionCalls parts = [] →
      (runFrom env (fuel + 1) s i).1 = .ok (fallthroughResult s)) ∧
    (fallthroughResult s).success = s.currentImage.isSome ∧
    (fallthroughResult s).image = s.currentImage ∧
    (fallthroughResult s).history = s.history := by
  refine ⟨rfl, ?_, ?_, rfl, ?_, rfl⟩
  · intro hc
    rw [runFrom_succ_none env fuel i s hc]
  · intro parts hc hfc
    rw [runFrom_succ_nocalls env fuel i s parts hc (by simp [hfc])]
  · cases hci : s.currentImage with
    | none => simp [fallthroughResult, jsTruthy, hci]
    | some v =>
      have hv : v ≠ "" := fun h => himg (by rw [hci, h])
      simp [fallthroughResult, jsTruthy, hci, hv]

/-- Environment of the C9 witness: a model that never answers with a
candidate. -/
def c9Env : RunEnv := {}

/-- State of the C9 witness: a run that accumulated an artifact. -/
def c9State : AgentState :=
  { initialAgentState [] none with currentImage := some "FINAL_IMAGE" }

/-- Witness for c9_fallthrough_bundle at a concrete state with an
artifact. -/
theorem c9_witness :
    ((runFrom c9Env 0 c9State 0).1 = .ok (fallthroughResult c9State)) ∧
    (fallthroughResult c9State).success = c9State.currentImage.isSome ∧
    (fallthroughResult c9State).image = c9State.currentImage :=
  ⟨(c9_fallthrough_bundle c9Env c9State 0 0 (by decide)).1,
   (c9_fallthrough_bundle c9Env c9State 0 0 (by decide)).2.2.2.1,
   (c9_fallthrough_bundle c9Env c9State 0 0 (by decide)).2.2.2.2.1⟩

end SentientStudio
